import Mathlib

/-!
Shallow embedding of `scripts/growth_projector.py` (class `GrowthProjector`).

Python floats are modelled as exact rationals (`ℚ`); `round(x, n)` is
modelled as round-half-to-even on rationals, matching Python's rounding
rule.  File contents and wall-clock time are passed explicitly.
-/

namespace GrowthProjector

/-- Python's `round(x)`: nearest integer, ties to even (banker's rounding). -/
def roundHalfEven (x : ℚ) : ℤ :=
  if x - (⌊x⌋ : ℚ) < 1/2 then ⌊x⌋
  else if 1/2 < x - (⌊x⌋ : ℚ) then ⌊x⌋ + 1
  else if ⌊x⌋ % 2 = 0 then ⌊x⌋ else ⌊x⌋ + 1

/-- Python's `round(x, n)`: round to `n` decimal places, ties to even. -/
def round_to (n : ℕ) (x : ℚ) : ℚ :=
  (roundHalfEven (x * 10 ^ n) : ℚ) / 10 ^ n

/-- `DEFAULT_BENCHMARKS['luxury_ecommerce']['organic_growth_curve']`
(lines 45-48): percent of total traffic from organic, keyed by month. -/
def organic_growth_curve : ℕ → Option ℚ
  | 1 => some 5 | 2 => some 7 | 3 => some 10 | 4 => some 12
  | 5 => some 15 | 6 => some 18 | 7 => some 22 | 8 => some 25
  | 9 => some 28 | 10 => some 30 | 11 => some 32 | 12 => some 35
  | _ => none

/-- `DEFAULT_BENCHMARKS['luxury_ecommerce']['cpc_optimization_curve']`
(lines 49-52): CPC reduction multiplier by month. -/
def cpc_optimization_curve : ℕ → Option ℚ
  | 1 => some 1 | 2 => some (95/100) | 3 => some (90/100) | 4 => some (85/100)
  | 5 => some (82/100) | 6 => some (80/100) | 7 => some (78/100) | 8 => some (76/100)
  | 9 => some (75/100) | 10 => some (74/100) | 11 => some (73/100) | 12 => some (72/100)
  | _ => none

/-- Line 107: `defaults['cpc_optimization_curve'].get(month, 0.75)`. -/
def cpc_multiplier (month : ℕ) : ℚ :=
  (cpc_optimization_curve month).getD (75/100)

/-- Line 124: `defaults['organic_growth_curve'].get(month, 35) / 100`. -/
def organic_pct_frac (month : ℕ) : ℚ :=
  (organic_growth_curve month).getD 35 / 100

/-- Lines 110-116: the tiered effective conversion rate. -/
def effective_cr_of (month : ℕ) (base_conversion_rate : ℚ) : ℚ :=
  if month ≤ 3 then base_conversion_rate
  else if month ≤ 6 then base_conversion_rate * (3/2)
  else base_conversion_rate * 2

/-- Line 127: `paid_clicks / (1 - organic_pct) if organic_pct < 1 else paid_clicks`. -/
def total_traffic_of (paid_clicks organic_pct : ℚ) : ℚ :=
  if organic_pct < 1 then paid_clicks / (1 - organic_pct) else paid_clicks

/-- The per-month record returned by `calculate_monthly_projection`
(lines 142-159).  Traffic counts are integers (`round(x)`), everything
else a rounded rational. -/
structure MonthlyProjection where
  month : ℕ
  ad_spend : ℚ
  effective_cpc : ℚ
  effective_cr : ℚ
  paid_traffic : ℤ
  paid_orders : ℚ
  paid_revenue : ℚ
  organic_pct : ℚ
  organic_traffic : ℤ
  organic_orders : ℚ
  organic_revenue : ℚ
  total_traffic : ℤ
  total_orders : ℚ
  total_revenue : ℚ
  roas : ℚ
  cac : ℚ
  deriving Repr, DecidableEq

/-- `GrowthProjector.calculate_monthly_projection` (lines 81-159), for the
single industry present in `DEFAULT_BENCHMARKS` (`luxury_ecommerce`). -/
def calculate_monthly_projection (month : ℕ)
    (monthly_ad_spend aov base_cpc base_conversion_rate : ℚ) :
    MonthlyProjection :=
  let effective_cpc := base_cpc * cpc_multiplier month
  let effective_cr := effective_cr_of month base_conversion_rate
  let paid_clicks := monthly_ad_spend / effective_cpc
  let paid_orders := paid_clicks * (effective_cr / 100)
  let paid_revenue := paid_orders * aov
  let organic_pct := organic_pct_frac month
  let total_traffic := total_traffic_of paid_clicks organic_pct
  let organic_traffic := total_traffic * organic_pct
  let organic_cr := effective_cr * (13/10)
  let organic_orders := organic_traffic * (organic_cr / 100)
  let organic_revenue := organic_orders * aov
  let total_orders := paid_orders + organic_orders
  let total_revenue := paid_revenue + organic_revenue
  let roas := if 0 < monthly_ad_spend then total_revenue / monthly_ad_spend else 0
  { month := month
    ad_spend := round_to 2 monthly_ad_spend
    effective_cpc := round_to 2 effective_cpc
    effective_cr := round_to 2 effective_cr
    paid_traffic := roundHalfEven paid_clicks
    paid_orders := round_to 1 paid_orders
    paid_revenue := round_to 2 paid_revenue
    organic_pct := round_to 1 (organic_pct * 100)
    organic_traffic := roundHalfEven organic_traffic
    organic_orders := round_to 1 organic_orders
    organic_revenue := round_to 2 organic_revenue
    total_traffic := roundHalfEven total_traffic
    total_orders := round_to 1 total_orders
    total_revenue := round_to 2 total_revenue
    roas := round_to 2 roas
    cac := if 0 < total_orders then round_to 2 (monthly_ad_spend / total_orders) else 0 }

/-- The slice of `industry_averages` that `generate_projections` reads
(line 184: `benchmarks.get('industry_averages', {}).get('avg_cpc')`). -/
structure IndustryAverages where
  avg_cpc : Option ℚ
  deriving Repr, DecidableEq

/-- The benchmark data held by `self.benchmarks`: a JSON object that may
or may not carry an `industry_averages.avg_cpc` entry. -/
structure BenchmarkData where
  industry_averages : Option IndustryAverages
  deriving Repr, DecidableEq

/-- Line 79: `{'industry_averages': self.DEFAULT_BENCHMARKS['luxury_ecommerce']}`
(`avg_cpc = 2.50`, line 39). -/
def default_benchmarks : BenchmarkData :=
  { industry_averages := some { avg_cpc := some (5/2) } }

/-- The content found at the benchmark path: either content `json.load`
parses to data `d`, or content on which `json.load` raises. -/
inductive BenchmarkFileContent where
  | parsable (d : BenchmarkData)
  | unparsable
  deriving Repr, DecidableEq

/-- `json.load` on the opened benchmark file (line 76). -/
def json_load : BenchmarkFileContent → Except String BenchmarkData
  | .parsable d => .ok d
  | .unparsable => .error "JSONDecodeError"

/-- `GrowthProjector._load_benchmarks` (lines 69-79), with the file system
passed explicitly: `none` models an absent file, `some c` a file with
content `c`.  The source wraps `json.load` in no exception handler, so an
unparsable file propagates the `JSONDecodeError` (modelled as `.error`);
only the absent-file case falls back to the defaults. -/
def load_benchmarks (file : Option BenchmarkFileContent) :
    Except String BenchmarkData :=
  match file with
  | some content => json_load content
  | none => .ok default_benchmarks

/-- Lines 183-186: `cpc` argument resolution (`None` falls back to the
loaded benchmarks' `avg_cpc`, then to the built-in default `2.50`). -/
def resolve_cpc (benchmarks : BenchmarkData) (cpc : Option ℚ) : ℚ :=
  match cpc with
  | some c => c
  | none =>
    match benchmarks.industry_averages with
    | some ia => ia.avg_cpc.getD (5/2)
    | none => 5/2

/-- Lines 188-189: `conversion_rate` defaults to
`DEFAULT_BENCHMARKS['luxury_ecommerce']['conversion_rate_month_1_3'] = 1.5`. -/
def resolve_cr (conversion_rate : Option ℚ) : ℚ :=
  conversion_rate.getD (3/2)

/-- The `inputs` echo of the returned dict (lines 202-208). -/
structure ProjectionInputs where
  monthly_ad_spend : ℚ
  aov : ℚ
  base_cpc : ℚ
  base_conversion_rate : ℚ
  months : ℕ
  deriving Repr, DecidableEq

/-- One summary window (`'3_month'` / `'6_month'`, lines 240-255). -/
structure SummaryWindow where
  total_spend : ℚ
  total_revenue : ℚ
  total_orders : ℚ
  roas : ℚ
  organic_traffic_pct : ℚ
  paid_traffic_pct : ℚ
  deriving Repr, DecidableEq

/-- `projections['summary']` (lines 239-257).  The keys `'3_month'` and
`'6_month'` are rendered as `month3` / `month6`. -/
structure ProjectionSummary where
  month3 : SummaryWindow
  month6 : SummaryWindow
  avg_cac : ℚ
  deriving Repr, DecidableEq

/-- The full bundle returned by `generate_projections` (lines 201-212).
`generated_at` (`datetime.now().isoformat()`, line 211) is modelled as an
abstract clock value passed in explicitly. -/
structure ProjectionReport where
  inputs : ProjectionInputs
  monthly : List MonthlyProjection
  summary : ProjectionSummary
  generated_at : ℕ
  deriving Repr, DecidableEq

/-- Lines 214-223: the loop `for month in range(1, months + 1)` appending
`calculate_monthly_projection(month, ...)`. -/
def projection_monthly (monthly_ad_spend aov cpc conversion_rate : ℚ)
    (months : ℕ) : List MonthlyProjection :=
  (List.range months).map fun i =>
    calculate_monthly_projection (i + 1) monthly_ad_spend aov cpc conversion_rate

/-- Lines 226-257: the summary block.  `last` is `projections['monthly'][-1]`,
needed by line 237 when fewer than 6 months exist. -/
def projection_summary (monthly : List MonthlyProjection)
    (last : MonthlyProjection) : ProjectionSummary :=
  let total_spend := (monthly.map (·.ad_spend)).sum
  let total_revenue := (monthly.map (·.total_revenue)).sum
  let total_orders := (monthly.map (·.total_orders)).sum
  let m3_spend := ((monthly.take 3).map (·.ad_spend)).sum
  let m3_revenue := ((monthly.take 3).map (·.total_revenue)).sum
  let m3_orders := ((monthly.take 3).map (·.total_orders)).sum
  let m3_organic_pct := ((monthly.get? 2).map (·.organic_pct)).getD 0
  let m6_organic_pct := ((monthly.get? 5).map (·.organic_pct)).getD last.organic_pct
  { month3 :=
    { total_spend := round_to 2 m3_spend
      total_revenue := round_to 2 m3_revenue
      total_orders := round_to 1 m3_orders
      roas := if 0 < m3_spend then round_to 2 (m3_revenue / m3_spend) else 0
      organic_traffic_pct := m3_organic_pct
      paid_traffic_pct := round_to 1 (100 - m3_organic_pct) }
    month6 :=
    { total_spend := round_to 2 total_spend
      total_revenue := round_to 2 total_revenue
      total_orders := round_to 1 total_orders
      roas := if 0 < total_spend then round_to 2 (total_revenue / total_spend) else 0
      organic_traffic_pct := m6_organic_pct
      paid_traffic_pct := round_to 1 (100 - m6_organic_pct) }
    avg_cac := if 0 < total_orders then round_to 2 (total_spend / total_orders) else 0 }

/-- `GrowthProjector.generate_projections` (lines 161-259).  The source
performs no input validation; the only failure path is the `[-1]` access
on line 237, which raises `IndexError` when the monthly list is empty
(`months < 1`).  `now` is the wall clock read on line 211. -/
def generate_projections (benchmarks : BenchmarkData)
    (monthly_ad_spend aov : ℚ) (cpc conversion_rate : Option ℚ)
    (months : ℕ) (now : ℕ) : Except String ProjectionReport :=
  match (projection_monthly monthly_ad_spend aov (resolve_cpc benchmarks cpc)
      (resolve_cr conversion_rate) months).getLast? with
  | none => .error "IndexError: list index out of range"
  | some last =>
    .ok
      { inputs :=
          { monthly_ad_spend := monthly_ad_spend
            aov := aov
            base_cpc := resolve_cpc benchmarks cpc
            base_conversion_rate := resolve_cr conversion_rate
            months := months }
        monthly := projection_monthly monthly_ad_spend aov (resolve_cpc benchmarks cpc)
          (resolve_cr conversion_rate) months
        summary := projection_summary
          (projection_monthly monthly_ad_spend aov (resolve_cpc benchmarks cpc)
            (resolve_cr conversion_rate) months) last
        generated_at := now }

/-- C1 (counterexample): at the spec's end-to-end scenario the code's
month-1 `cac` is `155.99`, not the claimed `156.02` — the source divides
the spend by the *unrounded* `total_orders` `609/19 ≈ 32.0526`, giving
`95000/609 ≈ 155.9934`. -/
theorem month1_golden_cac_counterexample :
    (calculate_monthly_projection 1 5000 65 (5/2) (3/2)).cac ≠ 15602/100 := by
  norm_num [calculate_monthly_projection, round_to, roundHalfEven, cpc_multiplier,
    cpc_optimization_curve, organic_pct_frac, organic_growth_curve, effective_cr_of,
    total_traffic_of]

/-- C1 (amended): with inputs `monthly_ad_spend=5000`, `aov=65`,
`base_cpc=2.50`, `base_conversion_rate=1.5` and the built-in default
curves, `calculate_monthly_projection` at month 1 returns exactly the
claimed record except that `cac = 155.99` (not `156.02`): every other
field — `effective_cpc=2.50`, `paid_traffic=2000`, `paid_orders=30.0`,
`paid_revenue=1950.00`, `organic_pct=5.0`, `organic_traffic=105`,
`organic_orders=2.1`, `organic_revenue=133.42`, `total_traffic=2105`,
`total_orders=32.1`, `total_revenue=2083.42`, `roas=0.42` — is as
claimed, under the stated rounding policy. -/
theorem month1_golden_record :
    calculate_monthly_projection 1 5000 65 (5/2) (3/2) =
      { month := 1
        ad_spend := 5000
        effective_cpc := 5/2
        effective_cr := 3/2
        paid_traffic := 2000
        paid_orders := 30
        paid_revenue := 1950
        organic_pct := 5
        organic_traffic := 105
        organic_orders := 21/10
        organic_revenue := 13342/100
        total_traffic := 2105
        total_orders := 321/10
        total_revenue := 208342/100
        roas := 42/100
        cac := 15599/100 } := by
  norm_num [calculate_monthly_projection, round_to, roundHalfEven, cpc_multiplier,
    cpc_optimization_curve, organic_pct_frac, organic_growth_curve, effective_cr_of,
    total_traffic_of, MonthlyProjection.mk.injEq]

/-- C6: the effective conversion rate used by
`calculate_monthly_projection` (and reported after 2-decimal rounding) is
the tiered step function `effective_cr_of`: exactly
`base_conversion_rate` for months 1-3, exactly `base_conversion_rate × 1.5`
for months 4-6, and exactly `base_conversion_rate × 2.0` for months ≥ 7 —
a step table, with no interpolation between tiers. -/
theorem tiered_conversion_rate (m : ℕ) (cr spend aov cpc : ℚ) :
    (calculate_monthly_projection m spend aov cpc cr).effective_cr
        = round_to 2 (effective_cr_of m cr) ∧
    (1 ≤ m → m ≤ 3 → effective_cr_of m cr = cr) ∧
    (4 ≤ m → m ≤ 6 → effective_cr_of m cr = cr * (3/2)) ∧
    (7 ≤ m → effective_cr_of m cr = cr * 2) := by
  refine ⟨rfl, fun _ h3 => ?_, fun h4 h6 => ?_, fun h7 => ?_⟩
  · simp [effective_cr_of, h3]
  · have h3 : ¬ m ≤ 3 := by omega
    simp [effective_cr_of, h3, h6]
  · have h3 : ¬ m ≤ 3 := by omega
    have h6 : ¬ m ≤ 6 := by omega
    simp [effective_cr_of, h3, h6]

/-- C6 witness: the three tiers at months 3, 4 and 7 for
`base_conversion_rate = 1.5`, showing the 1.5× step at 3→4 and the 2.0×
level from month 7 on. -/
theorem tiered_conversion_rate_witness :
    (calculate_monthly_projection 3 5000 65 (5/2) (3/2)).effective_cr
        = round_to 2 (effective_cr_of 3 (3/2)) ∧
    effective_cr_of 3 (3/2) = 3/2 ∧
    effective_cr_of 4 (3/2) = (3/2) * (3/2) ∧
    effective_cr_of 7 (3/2) = (3/2) * 2 :=
  ⟨(tiered_conversion_rate 3 (3/2) 5000 65 (5/2)).1,
   (tiered_conversion_rate 3 (3/2) 5000 65 (5/2)).2.1 (by norm_num) (by norm_num),
   (tiered_conversion_rate 4 (3/2) 5000 65 (5/2)).2.2.1 (by norm_num) (by norm_num),
   (tiered_conversion_rate 7 (3/2) 5000 65 (5/2)).2.2.2 (by norm_num)⟩

/-- C7: the total-traffic expression of `calculate_monthly_projection`
(line 127) yields `paid_clicks` whenever the organic share fraction is
≥ 1 (no division by zero) and `paid_clicks / (1 − organic_pct)` whenever
it is < 1; the record's `total_traffic` is exactly this expression
applied to the month's paid clicks and organic share, then rounded. -/
theorem organic_share_divide_guard (pc q spend aov cpc cr : ℚ) (m : ℕ) :
    ((calculate_monthly_projection m spend aov cpc cr).total_traffic
        = roundHalfEven
            (total_traffic_of (spend / (cpc * cpc_multiplier m)) (organic_pct_frac m))) ∧
    (1 ≤ q → total_traffic_of pc q = pc) ∧
    (q < 1 → total_traffic_of pc q = pc / (1 - q)) := by
  refine ⟨rfl, fun h => ?_, fun h => ?_⟩
  · simp [total_traffic_of, not_lt.mpr h]
  · simp [total_traffic_of, h]

/-- C7 witness: both branches of the guard at concrete inputs — a
degenerate 200% organic share keeps the traffic at the 2000 paid clicks,
a 5% share divides by `0.95`. -/
theorem organic_share_divide_guard_witness :
    (1 ≤ (2 : ℚ) ∧ total_traffic_of 2000 2 = 2000) ∧
    ((1/20 : ℚ) < 1 ∧ total_traffic_of 2000 (1/20) = 2000 / (1 - 1/20)) :=
  ⟨⟨by norm_num, (organic_share_divide_guard 2000 2 5000 65 (5/2) (3/2) 1).2.1 (by norm_num)⟩,
   ⟨by norm_num, (organic_share_divide_guard 2000 (1/20) 5000 65 (5/2) (3/2) 1).2.2 (by norm_num)⟩⟩

/-- C9 (counterexample): the CPC multiplier is *not* monotonically
non-increasing over the whole domain: the table ends at `0.72` for month
12 but the out-of-table default (line 107) is `0.75`, so the multiplier
rises from month 12 to month 13, and for `base_cpc = 2.50` the reported
`effective_cpc` rises from `1.80` to `1.88`. -/
theorem cpc_multiplier_monotone_counterexample :
    cpc_multiplier 12 = 72/100 ∧ cpc_multiplier 13 = 75/100 ∧
    ¬ (cpc_multiplier 13 ≤ cpc_multiplier 12) ∧
    (calculate_monthly_projection 12 5000 65 (5/2) (3/2)).effective_cpc = 18/10 ∧
    (calculate_monthly_projection 13 5000 65 (5/2) (3/2)).effective_cpc = 188/100 := by
  norm_num [cpc_multiplier, cpc_optimization_curve, calculate_monthly_projection,
    round_to, roundHalfEven]

/-- C9 (amended): the CPC multiplier is monotonically non-increasing
within the tabulated range (months 1-12), and constant `0.75` for every
month ≥ 13; monotonicity fails only across the table boundary, where the
months 10-12 values (0.74, 0.73, 0.72) sit below the 0.75 fallback. -/
theorem cpc_multiplier_piecewise_monotone (m m' : ℕ) :
    (1 ≤ m → m ≤ m' → m' ≤ 12 → cpc_multiplier m' ≤ cpc_multiplier m) ∧
    (13 ≤ m → cpc_multiplier m = 75/100) := by
  constructor
  · intro h1 hmm h12
    interval_cases m' <;> interval_cases m <;>
      norm_num [cpc_multiplier, cpc_optimization_curve]
  · intro h13
    obtain ⟨n, rfl⟩ : ∃ n, m = n + 13 := ⟨m - 13, by omega⟩
    rfl

/-- C9 witness: the multiplier falls from month 1 (1.0) to month 12
(0.72), and month 20 is clamped to the 0.75 default. -/
theorem cpc_multiplier_piecewise_monotone_witness :
    cpc_multiplier 12 ≤ cpc_multiplier 1 ∧ cpc_multiplier 20 = 75/100 :=
  ⟨(cpc_multiplier_piecewise_monotone 1 12).1 (by norm_num) (by norm_num) (by norm_num),
   (cpc_multiplier_piecewise_monotone 20 20).2 (by norm_num)⟩

theorem organic_growth_curve_getD_bounds (m : ℕ) :
    0 < (organic_growth_curve m).getD 35 ∧ (organic_growth_curve m).getD 35 ≤ 35 := by
  rcases m with _|_|_|_|_|_|_|_|_|_|_|_|_|n <;>
    first
      | (norm_num [organic_growth_curve]; done)
      | exact (show (0:ℚ) < 35 ∧ (35:ℚ) ≤ 35 by norm_num)

theorem organic_pct_frac_bounds (m : ℕ) :
    0 < organic_pct_frac m ∧ organic_pct_frac m < 1 := by
  obtain ⟨h1, h2⟩ := organic_growth_curve_getD_bounds m
  unfold organic_pct_frac
  exact ⟨div_pos h1 (by norm_num),
    (div_lt_one (by norm_num : (0:ℚ) < 100)).mpr (by linarith)⟩

theorem cpc_multiplier_pos (m : ℕ) : 0 < cpc_multiplier m := by
  rcases m with _|_|_|_|_|_|_|_|_|_|_|_|_|n <;>
    first
      | (norm_num [cpc_multiplier, cpc_optimization_curve]; done)
      | exact (show (0:ℚ) < 75/100 by norm_num)

/-- Banker's rounding moves a value by at most half a unit. -/
theorem abs_roundHalfEven_sub_le (x : ℚ) : |(roundHalfEven x : ℚ) - x| ≤ 1/2 := by
  have h0 : (⌊x⌋ : ℚ) ≤ x := Int.floor_le x
  have h1 : x < ⌊x⌋ + 1 := Int.lt_floor_add_one x
  unfold roundHalfEven
  split_ifs with hlt hgt heven
  · rw [abs_le]; constructor <;> linarith
  · rw [abs_le]; constructor <;> push_cast <;> linarith
  · have hhalf : x - ⌊x⌋ = 1/2 := le_antisymm (not_lt.mp hgt) (not_lt.mp hlt)
    rw [abs_le]; constructor <;> linarith
  · have hhalf : x - ⌊x⌋ = 1/2 := le_antisymm (not_lt.mp hgt) (not_lt.mp hlt)
    rw [abs_le]; constructor <;> push_cast <;> linarith

/-- The unrounded paid and organic traffic add up exactly to the
unrounded total traffic whenever the organic share is below 100%. -/
theorem paid_add_organic (p q : ℚ) (hq : q < 1) :
    p + total_traffic_of p q * q = total_traffic_of p q := by
  rw [total_traffic_of, if_pos hq]
  have h : (0:ℚ) < 1 - q := by linarith
  field_simp
  ring

/-- C8: for every month record of `calculate_monthly_projection` (under
the Projection Input invariant `ad_spend ≥ 0`, `aov > 0`, `base_cpc > 0`,
`base_conversion_rate ∈ (0,100]`), the reported `organic_traffic` plus
`paid_traffic` equals the reported `total_traffic` to within one unit
(the nearest-integer rounding epsilon). -/
theorem traffic_conservation (m : ℕ) (spend aov cpc cr : ℚ)
    (_h_spend : 0 ≤ spend) (_h_aov : 0 < aov) (_h_cpc : 0 < cpc)
    (_h_cr : 0 < cr) (_h_cr100 : cr ≤ 100) :
    |(calculate_monthly_projection m spend aov cpc cr).organic_traffic
        + (calculate_monthly_projection m spend aov cpc cr).paid_traffic
        - (calculate_monthly_projection m spend aov cpc cr).total_traffic| ≤ 1 := by
  have hq := (organic_pct_frac_bounds m).2
  set p := spend / (cpc * cpc_multiplier m) with hp
  set q := organic_pct_frac m with hqdef
  set t := total_traffic_of p q with ht
  have hsum : p + t * q = t := paid_add_organic p q hq
  have hP : (calculate_monthly_projection m spend aov cpc cr).paid_traffic
      = roundHalfEven p := rfl
  have hO : (calculate_monthly_projection m spend aov cpc cr).organic_traffic
      = roundHalfEven (t * q) := rfl
  have hT : (calculate_monthly_projection m spend aov cpc cr).total_traffic
      = roundHalfEven t := rfl
  rw [hP, hO, hT]
  have b1 := abs_le.mp (abs_roundHalfEven_sub_le p)
  have b2 := abs_le.mp (abs_roundHalfEven_sub_le (t * q))
  have b3 := abs_le.mp (abs_roundHalfEven_sub_le t)
  have habs : |((roundHalfEven (t * q) + roundHalfEven p - roundHalfEven t : ℤ) : ℚ)|
      ≤ 3/2 := by
    rw [abs_le]
    push_cast
    constructor <;> linarith
  have hlt2 : |roundHalfEven (t * q) + roundHalfEven p - roundHalfEven t| < 2 := by
    have h32 : ((|roundHalfEven (t * q) + roundHalfEven p - roundHalfEven t| : ℤ) : ℚ)
        ≤ 3/2 := by
      rw [Int.cast_abs]; exact habs
    exact_mod_cast lt_of_le_of_lt h32 (by norm_num : (3:ℚ)/2 < 2)
  exact Int.lt_add_one_iff.mp hlt2

/-- C8 witness: the golden-scenario month 1, where
`105 + 2000 − 2105 = 0`. -/
theorem traffic_conservation_witness :
    |(calculate_monthly_projection 1 5000 65 (5/2) (3/2)).organic_traffic
        + (calculate_monthly_projection 1 5000 65 (5/2) (3/2)).paid_traffic
        - (calculate_monthly_projection 1 5000 65 (5/2) (3/2)).total_traffic| ≤ 1 :=
  traffic_conservation 1 5000 65 (5/2) (3/2) (by norm_num) (by norm_num)
    (by norm_num) (by norm_num) (by norm_num)

theorem roundHalfEven_nonneg {x : ℚ} (hx : 0 ≤ x) : 0 ≤ roundHalfEven x := by
  have h0 : (0:ℤ) ≤ ⌊x⌋ := Int.floor_nonneg.mpr hx
  unfold roundHalfEven
  split_ifs <;> omega

theorem round_to_nonneg (n : ℕ) {x : ℚ} (hx : 0 ≤ x) : 0 ≤ round_to n x := by
  have h : 0 ≤ roundHalfEven (x * 10 ^ n) :=
    roundHalfEven_nonneg (by positivity)
  have h' : (0:ℚ) ≤ (roundHalfEven (x * 10 ^ n) : ℚ) := by exact_mod_cast h
  unfold round_to
  positivity

theorem effective_cr_of_pos (m : ℕ) {cr : ℚ} (h_cr : 0 < cr) :
    0 < effective_cr_of m cr := by
  unfold effective_cr_of
  split_ifs
  · exact h_cr
  · exact mul_pos h_cr (by norm_num)
  · exact mul_pos h_cr (by norm_num)

/-- C10: under the Projection Input invariant (`monthly_ad_spend ≥ 0`,
`aov > 0`, `base_cpc > 0`, `base_conversion_rate > 0`) every numeric
field of the month record is non-negative, and the computation is total:
both divisors — the effective CPC `base_cpc × cpc_multiplier[m]` and the
paid share `1 − organic_pct` — are strictly positive, and the guarded
`roas`/`cac` divisions return 0 at zero spend / zero orders. -/
theorem monthly_record_nonneg (m : ℕ) (spend aov cpc cr : ℚ)
    (h_spend : 0 ≤ spend) (h_aov : 0 < aov) (h_cpc : 0 < cpc) (h_cr : 0 < cr) :
    0 < cpc * cpc_multiplier m ∧
    organic_pct_frac m < 1 ∧
    0 ≤ (calculate_monthly_projection m spend aov cpc cr).ad_spend ∧
    0 ≤ (calculate_monthly_projection m spend aov cpc cr).effective_cpc ∧
    0 ≤ (calculate_monthly_projection m spend aov cpc cr).effective_cr ∧
    0 ≤ (calculate_monthly_projection m spend aov cpc cr).paid_traffic ∧
    0 ≤ (calculate_monthly_projection m spend aov cpc cr).paid_orders ∧
    0 ≤ (calculate_monthly_projection m spend aov cpc cr).paid_revenue ∧
    0 ≤ (calculate_monthly_projection m spend aov cpc cr).organic_pct ∧
    0 ≤ (calculate_monthly_projection m spend aov cpc cr).organic_traffic ∧
    0 ≤ (calculate_monthly_projection m spend aov cpc cr).organic_orders ∧
    0 ≤ (calculate_monthly_projection m spend aov cpc cr).organic_revenue ∧
    0 ≤ (calculate_monthly_projection m spend aov cpc cr).total_traffic ∧
    0 ≤ (calculate_monthly_projection m spend aov cpc cr).total_orders ∧
    0 ≤ (calculate_monthly_projection m spend aov cpc cr).total_revenue ∧
    0 ≤ (calculate_monthly_projection m spend aov cpc cr).roas ∧
    0 ≤ (calculate_monthly_projection m spend aov cpc cr).cac := by
  obtain ⟨hq0, hq1⟩ := organic_pct_frac_bounds m
  have hmult := cpc_multiplier_pos m
  have hecpc : 0 < cpc * cpc_multiplier m := mul_pos h_cpc hmult
  have hecr : 0 < effective_cr_of m cr := effective_cr_of_pos m h_cr
  have hpc : 0 ≤ spend / (cpc * cpc_multiplier m) := div_nonneg h_spend hecpc.le
  have hpo : 0 ≤ spend / (cpc * cpc_multiplier m) * (effective_cr_of m cr / 100) :=
    mul_nonneg hpc (by positivity)
  have hpr : 0 ≤ spend / (cpc * cpc_multiplier m) * (effective_cr_of m cr / 100) * aov :=
    mul_nonneg hpo h_aov.le
  have ht : 0 ≤ total_traffic_of (spend / (cpc * cpc_multiplier m)) (organic_pct_frac m) := by
    rw [total_traffic_of, if_pos hq1]
    exact div_nonneg hpc (by linarith)
  have hot : 0 ≤ total_traffic_of (spend / (cpc * cpc_multiplier m)) (organic_pct_frac m)
      * organic_pct_frac m := mul_nonneg ht hq0.le
  have hoo : 0 ≤ total_traffic_of (spend / (cpc * cpc_multiplier m)) (organic_pct_frac m)
      * organic_pct_frac m * (effective_cr_of m cr * (13/10) / 100) :=
    mul_nonneg hot (by positivity)
  have hor : 0 ≤ total_traffic_of (spend / (cpc * cpc_multiplier m)) (organic_pct_frac m)
      * organic_pct_frac m * (effective_cr_of m cr * (13/10) / 100) * aov :=
    mul_nonneg hoo h_aov.le
  have hto : 0 ≤ spend / (cpc * cpc_multiplier m) * (effective_cr_of m cr / 100)
      + total_traffic_of (spend / (cpc * cpc_multiplier m)) (organic_pct_frac m)
      * organic_pct_frac m * (effective_cr_of m cr * (13/10) / 100) := add_nonneg hpo hoo
  have htr : 0 ≤ spend / (cpc * cpc_multiplier m) * (effective_cr_of m cr / 100) * aov
      + total_traffic_of (spend / (cpc * cpc_multiplier m)) (organic_pct_frac m)
      * organic_pct_frac m * (effective_cr_of m cr * (13/10) / 100) * aov :=
    add_nonneg hpr hor
  have hroas : 0 ≤ (if 0 < spend then
      (spend / (cpc * cpc_multiplier m) * (effective_cr_of m cr / 100) * aov
        + total_traffic_of (spend / (cpc * cpc_multiplier m)) (organic_pct_frac m)
        * organic_pct_frac m * (effective_cr_of m cr * (13/10) / 100) * aov) / spend
      else 0) := by
    split_ifs with h
    · exact div_nonneg htr h.le
    · exact le_refl 0
  have hcac : 0 ≤ (if 0 < spend / (cpc * cpc_multiplier m) * (effective_cr_of m cr / 100)
      + total_traffic_of (spend / (cpc * cpc_multiplier m)) (organic_pct_frac m)
      * organic_pct_frac m * (effective_cr_of m cr * (13/10) / 100) then
      round_to 2 (spend / (spend / (cpc * cpc_multiplier m) * (effective_cr_of m cr / 100)
        + total_traffic_of (spend / (cpc * cpc_multiplier m)) (organic_pct_frac m)
        * organic_pct_frac m * (effective_cr_of m cr * (13/10) / 100))) else 0) := by
    split_ifs with h
    · exact round_to_nonneg 2 (div_nonneg h_spend h.le)
    · exact le_refl 0
  exact ⟨hecpc, hq1,
    round_to_nonneg 2 h_spend,
    round_to_nonneg 2 hecpc.le,
    round_to_nonneg 2 hecr.le,
    roundHalfEven_nonneg hpc,
    round_to_nonneg 1 hpo,
    round_to_nonneg 2 hpr,
    round_to_nonneg 1 (mul_nonneg hq0.le (by norm_num)),
    roundHalfEven_nonneg hot,
    round_to_nonneg 1 hoo,
    round_to_nonneg 2 hor,
    roundHalfEven_nonneg ht,
    round_to_nonneg 1 hto,
    round_to_nonneg 2 htr,
    round_to_nonneg 2 hroas,
    hcac⟩

/-- C10 witness: the golden-scenario inputs at month 1. -/
theorem monthly_record_nonneg_witness :
    0 < (5:ℚ)/2 * cpc_multiplier 1 ∧
    organic_pct_frac 1 < 1 ∧
    0 ≤ (calculate_monthly_projection 1 5000 65 (5/2) (3/2)).ad_spend ∧
    0 ≤ (calculate_monthly_projection 1 5000 65 (5/2) (3/2)).effective_cpc ∧
    0 ≤ (calculate_monthly_projection 1 5000 65 (5/2) (3/2)).effective_cr ∧
    0 ≤ (calculate_monthly_projection 1 5000 65 (5/2) (3/2)).paid_traffic ∧
    0 ≤ (calculate_monthly_projection 1 5000 65 (5/2) (3/2)).paid_orders ∧
    0 ≤ (calculate_monthly_projection 1 5000 65 (5/2) (3/2)).paid_revenue ∧
    0 ≤ (calculate_monthly_projection 1 5000 65 (5/2) (3/2)).organic_pct ∧
    0 ≤ (calculate_monthly_projection 1 5000 65 (5/2) (3/2)).organic_traffic ∧
    0 ≤ (calculate_monthly_projection 1 5000 65 (5/2) (3/2)).organic_orders ∧
    0 ≤ (calculate_monthly_projection 1 5000 65 (5/2) (3/2)).organic_revenue ∧
    0 ≤ (calculate_monthly_projection 1 5000 65 (5/2) (3/2)).total_traffic ∧
    0 ≤ (calculate_monthly_projection 1 5000 65 (5/2) (3/2)).total_orders ∧
    0 ≤ (calculate_monthly_projection 1 5000 65 (5/2) (3/2)).total_revenue ∧
    0 ≤ (calculate_monthly_projection 1 5000 65 (5/2) (3/2)).roas ∧
    0 ≤ (calculate_monthly_projection 1 5000 65 (5/2) (3/2)).cac :=
  monthly_record_nonneg 1 5000 65 (5/2) (3/2) (by norm_num) (by norm_num)
    (by norm_num) (by norm_num)

/-- C4 (counterexample): a benchmark file that is present but unparsable
does *not* degrade to the default curve set — `_load_benchmarks` calls
`json.load` with no exception handler, so the `JSONDecodeError`
propagates and aborts the pipeline. -/
theorem load_benchmarks_unparsable_counterexample :
    load_benchmarks (some .unparsable) = .error "JSONDecodeError" ∧
    load_benchmarks (some .unparsable) ≠ .ok default_benchmarks :=
  ⟨rfl, by simp [load_benchmarks, json_load]⟩

/-- C4 (amended): `_load_benchmarks` falls back to the built-in defaults
(with a warning) only when the file is *absent*; a present and parsable
file is returned as parsed, and a present but unparsable file raises
`JSONDecodeError` instead of degrading to defaults. -/
theorem load_benchmarks_behavior :
    load_benchmarks none = .ok default_benchmarks ∧
    (∀ d : BenchmarkData, load_benchmarks (some (.parsable d)) = .ok d) ∧
    load_benchmarks (some .unparsable) = .error "JSONDecodeError" :=
  ⟨rfl, fun _ => rfl, rfl⟩

/-- C5 (counterexample): two calls of `generate_projections` with
identical inputs and benchmark data but different wall-clock instants do
*not* return identical bundles — the report embeds `generated_at =
datetime.now().isoformat()`, which differs between the runs. -/
theorem determinism_counterexample :
    generate_projections default_benchmarks 5000 65 none none 3 0 ≠
      generate_projections default_benchmarks 5000 65 none none 3 1 := by
  have hne : projection_monthly 5000 65 (resolve_cpc default_benchmarks none)
      (resolve_cr none) 3 ≠ [] := by
    simp [projection_monthly]
  obtain ⟨last, hlast⟩ := Option.isSome_iff_exists.mp (List.getLast?_isSome.mpr hne)
  unfold generate_projections
  rw [hlast]
  simp

/-- C5 (amended): for every fixed input tuple and fixed benchmark data,
two calls of `generate_projections` agree on every field of the returned
report *except* `generated_at`: the inputs echo, the full monthly series
and the summary are equal across the two runs. -/
theorem determinism_modulo_timestamp (b : BenchmarkData) (spend aov : ℚ)
    (cpc cr : Option ℚ) (months now1 now2 : ℕ) :
    (generate_projections b spend aov cpc cr months now1).map
        (fun r => (r.inputs, r.monthly, r.summary)) =
      (generate_projections b spend aov cpc cr months now2).map
        (fun r => (r.inputs, r.monthly, r.summary)) := by
  unfold generate_projections
  cases (projection_monthly spend aov (resolve_cpc b cpc)
      (resolve_cr cr) months).getLast? <;> rfl

/-- C2 (counterexample): the invalid-input scenario
`{ad_spend = -1, aov = 65, months = 3}` is *not* rejected —
`generate_projections` contains no validation code, so computation
proceeds and a report with 3 monthly records and the negative spend
echoed unchanged is returned. -/
theorem no_validation_counterexample :
    (generate_projections default_benchmarks (-1) 65 none none 3 0).map
        (fun r => (r.monthly.length, r.inputs.monthly_ad_spend)) = .ok (3, -1) := by
  have hne : projection_monthly (-1) 65 (resolve_cpc default_benchmarks none)
      (resolve_cr none) 3 ≠ [] := by
    simp [projection_monthly]
  obtain ⟨last, hlast⟩ := Option.isSome_iff_exists.mp (List.getLast?_isSome.mpr hne)
  unfold generate_projections
  rw [hlast]
  simp [projection_monthly, Except.map]

/-- C2 (amended): `generate_projections` performs no input validation at
all: for every `ad_spend` (negative included), every `aov` (non-positive
included) and every `months ≥ 1` it returns a report with exactly
`months` monthly records and the inputs echoed unchanged — nothing is
rejected and nothing is silently corrected.  `months < 1` fails with an
`IndexError` raised from the summary construction (line 237), after the
per-month loop and the totals have already run — not with a
pre-computation ValidationError. -/
theorem no_validation (b : BenchmarkData) (spend aov : ℚ) (cpc cr : Option ℚ)
    (months now : ℕ) (h : 1 ≤ months) :
    (∃ r : ProjectionReport,
      generate_projections b spend aov cpc cr months now = .ok r ∧
      r.monthly.length = months ∧
      r.inputs.monthly_ad_spend = spend ∧ r.inputs.aov = aov) ∧
    generate_projections b spend aov cpc cr 0 now
      = .error "IndexError: list index out of range" := by
  have hlen : (projection_monthly spend aov (resolve_cpc b cpc)
      (resolve_cr cr) months).length = months := by
    simp [projection_monthly]
  have hne : projection_monthly spend aov (resolve_cpc b cpc)
      (resolve_cr cr) months ≠ [] := by
    intro h0
    rw [h0] at hlen
    simp at hlen
    omega
  obtain ⟨last, hlast⟩ := Option.isSome_iff_exists.mp (List.getLast?_isSome.mpr hne)
  have hok : generate_projections b spend aov cpc cr months now =
      .ok { inputs := { monthly_ad_spend := spend, aov := aov,
                        base_cpc := resolve_cpc b cpc,
                        base_conversion_rate := resolve_cr cr,
                        months := months },
            monthly := projection_monthly spend aov (resolve_cpc b cpc)
                         (resolve_cr cr) months,
            summary := projection_summary
                         (projection_monthly spend aov (resolve_cpc b cpc)
                           (resolve_cr cr) months) last,
            generated_at := now } := by
    unfold generate_projections
    rw [hlast]
  exact ⟨⟨_, hok, hlen, rfl, rfl⟩, rfl⟩

/-- C2 witness: the invalid-input scenario of the spec, `ad_spend = -1`,
`aov = 65`, `months = 3`. -/
theorem no_validation_witness :
    (∃ r : ProjectionReport,
      generate_projections default_benchmarks (-1) 65 none none 3 0 = .ok r ∧
      r.monthly.length = 3 ∧
      r.inputs.monthly_ad_spend = -1 ∧ r.inputs.aov = 65) ∧
    generate_projections default_benchmarks (-1) 65 none none 0 0
      = .error "IndexError: list index out of range" :=
  no_validation default_benchmarks (-1) 65 none none 3 0 (by norm_num)

/-- C3 (failing-input evaluation): at `months = 7` with `spend = 5000`,
`aov = 65`, `cpc = 2.50`, `conversion_rate = 1.5`, the `'6_month'`
summary's `total_spend` is the *full 7-month* total `35000` (the source
sums `projections['monthly']` with no `[:6]` slice, lines 226-228 and
248-252), while the sum over the first `min(6, months) = 6` months — the
window the claim states — is `30000`. -/
theorem six_month_window_divergence :
    (generate_projections default_benchmarks 5000 65 (some (5/2)) (some (3/2)) 7 0).map
        (fun r => (r.summary.month6.total_spend,
          ((r.monthly.take 6).map (·.ad_spend)).sum)) = .ok (35000, 30000) := by
  have hne : projection_monthly 5000 65 (resolve_cpc default_benchmarks (some (5/2)))
      (resolve_cr (some (3/2))) 7 ≠ [] := by
    simp [projection_monthly]
  obtain ⟨last, hlast⟩ := Option.isSome_iff_exists.mp (List.getLast?_isSome.mpr hne)
  have hr : List.range 7 = [0, 1, 2, 3, 4, 5, 6] := rfl
  have h5 : round_to 2 (5000:ℚ) = 5000 := by norm_num [round_to, roundHalfEven]
  have had : ∀ i : ℕ, (calculate_monthly_projection i 5000 65 (5/2) (3/2)).ad_spend
      = round_to 2 5000 := fun _ => rfl
  unfold generate_projections
  rw [hlast]
  simp only [Except.map, resolve_cpc, resolve_cr, Option.getD_some, projection_summary,
    projection_monthly, hr, List.map_cons, List.map_nil, had, h5, List.take_succ_cons,
    List.take_nil, List.take_zero, List.sum_cons, List.sum_nil, Except.ok.injEq,
    Prod.mk.injEq]
  norm_num [round_to, roundHalfEven]

end GrowthProjector
